import Mathlib

/-!
Verification development for the protools-api relay service (src/app.py).

The service keeps two in-memory mappings (`FIRMS`, `ACCESS_CACHE`), a token
refresher (`refresh_access_token`) and three HTTP endpoints
(`firms_connect`, `clients_search`, `clients_resolve`).  We embed the
Python code shallowly: dictionaries become association lists, the two
upstream HTTP collaborators (identity provider, accounting API) become
oracle functions passed in as parameters, raised exceptions become an
`Except` error channel, and JSON reply bodies become a small `JVal` type.
Every handler additionally returns the updated store state and the list of
refresh tokens it sent to the identity provider (one entry per network
call to the token endpoint), so that "no network call" and "which refresh
token was sent" are observable.
-/

namespace ProtoolsApi

/-- JSON values, as produced by Flask `jsonify` on the Python values the
handlers build (Python `None` becomes `null`). -/
inductive JVal where
  | null : JVal
  | bool : Bool → JVal
  | str : String → JVal
  | num : Int → JVal
  | arr : List JVal → JVal
  | obj : List (String × JVal) → JVal
deriving Repr

/-- A JSON value in a `payload.get(...)` position: the Python handlers only
inspect whether it is absent (`None`), an int, or a string. -/
inductive PyVal where
  | vnone : PyVal
  | vint : Int → PyVal
  | vstr : String → PyVal
deriving DecidableEq, Repr

/-- Python truthiness on such a value (`None`, `0` and `""` are falsy). -/
def pyTruthy : PyVal → Bool
  | .vnone => false
  | .vint n => n != 0
  | .vstr s => s != ""

/-- Python truthiness of an optional string (`None` and `""` are falsy). -/
def truthyS : Option String → Bool
  | none => false
  | some s => s != ""

/-- Exceptions a handler can raise: `raise Exception(msg)`, a dict
`KeyError`, and the `ValueError` of a failed `int()` conversion. -/
inductive PyErr where
  | exc : String → PyErr
  | keyError : String → PyErr
  | valueError : String → PyErr
deriving DecidableEq, Repr

/-- Value of `FIRMS[firm_id]`: tenant id and current refresh token. -/
structure Firm where
  tenant_id : String
  refresh_token : String
deriving DecidableEq, Repr

/-- Value of `ACCESS_CACHE[firm_id]`: access token and absolute expiry. -/
structure CachedToken where
  access_token : String
  expires_at : Int
deriving DecidableEq, Repr

/-- Model of `dict.get(k)` on an association list. -/
def lookupA {α : Type} (m : List (String × α)) (k : String) : Option α :=
  (m.find? (fun p => p.1 == k)).map (fun p => p.2)

/-- Model of `dict[k] = v`: insert or overwrite. -/
def insertA {α : Type} (m : List (String × α)) (k : String) (v : α) :
    List (String × α) :=
  (k, v) :: m.filter (fun p => !(p.1 == k))

/-- Model of `dict.pop(k, None)`: remove the key if present. -/
def removeA {α : Type} (m : List (String × α)) (k : String) :
    List (String × α) :=
  m.filter (fun p => !(p.1 == k))

/-- The module-level mutable state: `FIRMS` and `ACCESS_CACHE`. -/
structure StoreState where
  firms : List (String × Firm)
  cache : List (String × CachedToken)
deriving DecidableEq, Repr

/-- Response of the identity provider token endpoint, pre-parsed: HTTP
status, raw body text, and the three JSON fields the refresher reads
(`None` when the key is absent from the JSON object). -/
structure IdpResponse where
  status_code : Nat
  text : String
  access_token : Option String
  refresh_token : Option String
  expires_in : Option Int
deriving DecidableEq, Repr

/-- Body of `refresh_access_token` after the cache check failed: look up
the firm, POST the refresh-token grant, rotate tokens.  Faithful to
src/app.py lines 49-79, including the partial mutation when
`data["refresh_token"]` is missing (the cache was already written).
Returns (result, new state, refresh tokens sent to the provider). -/
def refresh_after_miss (idp : String → IdpResponse) (now : Int)
    (st : StoreState) (firm_id : String) :
    Except PyErr String × StoreState × List String :=
  match lookupA st.firms firm_id with
  | none => (.error (.exc "Firm not connected"), st, [])
  | some firm =>
    let resp := idp firm.refresh_token
    if resp.status_code != 200 then
      (.error (.exc ("Token refresh failed: " ++ resp.text)), st,
        [firm.refresh_token])
    else
      match resp.access_token with
      | none => (.error (.keyError "access_token"), st, [firm.refresh_token])
      | some atok =>
        let newTok : CachedToken :=
          CachedToken.mk atok (now + resp.expires_in.getD 1800)
        let st1 : StoreState := { st with cache := insertA st.cache firm_id newTok }
        match resp.refresh_token with
        | none => (.error (.keyError "refresh_token"), st1, [firm.refresh_token])
        | some rtok =>
          let newFirm : Firm := { firm with refresh_token := rtok }
          let st2 : StoreState := { st1 with firms := insertA st1.firms firm_id newFirm }
          (.ok atok, st2, [firm.refresh_token])

/-- Embedding of `refresh_access_token(firm_id)` (src/app.py lines 38-79): return the
cached access token if it expires more than 60 seconds from now,
otherwise refresh via the identity provider. -/
def refresh_access_token (idp : String → IdpResponse) (now : Int)
    (st : StoreState) (firm_id : String) :
    Except PyErr String × StoreState × List String :=
  match lookupA st.cache firm_id with
  | some cached =>
    if cached.expires_at > now + 60 then
      (.ok cached.access_token, st, [])
    else
      refresh_after_miss idp now st firm_id
  | none => refresh_after_miss idp now st firm_id

/-- Body of `POST /firms/connect`. -/
structure ConnectPayload where
  firm_id : Option String
  tenant_id : Option String
  refresh_token : Option String
deriving DecidableEq, Repr

/-- Embedding of `firms_connect` (src/app.py lines 89-116): validate, store/overwrite
the firm, drop any cached token, reply `{ok, firm_id}`.
Returns ((body, HTTP status), new state). -/
def firms_connect (st : StoreState) (p : ConnectPayload) :
    (JVal × Nat) × StoreState :=
  if !(truthyS p.firm_id && truthyS p.tenant_id && truthyS p.refresh_token) then
    ((JVal.obj [("ok", JVal.bool false),
        ("error", JVal.str "firm_id, tenant_id, refresh_token required")], 400), st)
  else
    let fid := p.firm_id.getD ""
    let newFirm : Firm := Firm.mk (p.tenant_id.getD "") (p.refresh_token.getD "")
    let st1 : StoreState :=
      StoreState.mk (insertA st.firms fid newFirm) (removeA st.cache fid)
    ((JVal.obj [("ok", JVal.bool true), ("firm_id", JVal.str fid)], 200), st1)

/-- One phone object inside a contact's `Phones` array. -/
structure PhoneJson where
  PhoneNumber : Option String
deriving DecidableEq, Repr

/-- One address object inside a contact's `Addresses` array. -/
structure AddressJson where
  AddressLine1 : Option String
  City : Option String
  Region : Option String
  PostalCode : Option String
  Country : Option String
deriving DecidableEq, Repr

/-- One contact object of the accounting API's JSON, restricted to the
keys the handlers read; `none` models an absent key. -/
structure ContactJson where
  ContactID : Option String
  Name : Option String
  EmailAddress : Option String
  Phones : Option (List PhoneJson)
  Addresses : Option (List AddressJson)
deriving DecidableEq, Repr

/-- A contact JSON object with no keys at all (Python `{}`). -/
def emptyContact : ContactJson := ContactJson.mk none none none none none

/-- An address JSON object with no keys (Python `{}`). -/
def emptyAddress : AddressJson := AddressJson.mk none none none none none

/-- A phone JSON object with no keys (Python `{}`). -/
def emptyPhone : PhoneJson := PhoneJson.mk none

/-- Response of a `GET .../Contacts...` call: HTTP status, raw body text,
and the parsed `Contacts` array (`none` when the key is absent). -/
structure ApiResponse where
  status_code : Nat
  text : String
  Contacts : Option (List ContactJson)
deriving DecidableEq, Repr

/-- The request data a contacts call sends upstream: bearer header value,
`xero-tenant-id` header, and for search the `where` query parameter
(for resolve, the client id in the URL path). -/
structure ContactsRequest where
  bearer : String
  tenant : String
  param : String
deriving DecidableEq, Repr

/-- Python `x or d` where `x` is an optional list (both `None` and an
empty list are falsy and yield the default). -/
def orList {α : Type} (x : Option (List α)) (d : List α) : List α :=
  match x with
  | none => d
  | some l => if l.isEmpty then d else l

/-- Remove leading and trailing characters satisfying `p` from a
character list. -/
def stripWhile (p : Char → Bool) (l : List Char) : List Char :=
  ((l.dropWhile p).reverse.dropWhile p).reverse

/-- Python `s.strip(chars)`: remove any leading and trailing characters
belonging to `cs`. -/
def stripChars (cs : List Char) (s : String) : String :=
  String.mk (stripWhile (fun c => c ∈ cs) s.toList)

/-- Python `s.strip()` with no argument: remove leading and trailing
whitespace. -/
def pyStrip (s : String) : String :=
  String.mk (stripWhile Char.isWhitespace s.toList)

/-- The option label of src/app.py line 162:
`f"{name} — {email}".strip(" —")`. -/
def labelOf (name email : String) : String :=
  stripChars [' ', '—'] (name ++ " — " ++ email)

/-- The body of the search loop (src/app.py lines 157-163): emit an
`{id, label}` object unless the contact misses (or has a falsy)
`ContactID` or `Name`; an absent `EmailAddress` counts as `""`. -/
def optionOf (c : ContactJson) : Option JVal :=
  let email := c.EmailAddress.getD ""
  if truthyS c.ContactID && truthyS c.Name then
    some (JVal.obj [("id", JVal.str (c.ContactID.getD "")),
      ("label", JVal.str (labelOf (c.Name.getD "") email))])
  else
    none

/-- Python `lst[:n]` for an `int` bound `n`: the first `n` elements when
`n ≥ 0`, everything but the last `|n|` elements when `n < 0`. -/
def pySliceTo {α : Type} (xs : List α) (n : Int) : List α :=
  if 0 ≤ n then xs.take n.toNat else xs.take (xs.length - (-n).toNat)

/-- Value of a list of decimal digit characters. -/
def digitsToNat (l : List Char) : Nat :=
  l.foldl (fun acc c => acc * 10 + (c.toNat - 48)) 0

/-- Python `int(s)` on a string: an optional sign followed by one or more
decimal digits (a simplified model of CPython's base-10 parser, exact on
the inputs considered here); anything else raises ValueError. -/
def pyIntOfString (s : String) : Except PyErr Int :=
  let err : Except PyErr Int :=
    .error (.valueError ("invalid literal for int() with base 10: " ++ s))
  match s.toList with
  | '-' :: rest =>
    if rest ≠ [] ∧ rest.all Char.isDigit then .ok (-(digitsToNat rest : Int))
    else err
  | '+' :: rest =>
    if rest ≠ [] ∧ rest.all Char.isDigit then .ok (digitsToNat rest) else err
  | l =>
    if l ≠ [] ∧ l.all Char.isDigit then .ok (digitsToNat l) else err

/-- Python `int(v)` on the payload values that can appear here. -/
def pyInt : PyVal → Except PyErr Int
  | .vnone => .error (.exc "int() argument must not be None")
  | .vint n => .ok n
  | .vstr s => pyIntOfString s

/-- Body of `POST /clients/search`; `limit` is the raw value of
`payload.get("limit")` (`vnone` when the key is absent). -/
structure SearchPayload where
  firm_id : Option String
  query : Option String
  limit : PyVal
deriving DecidableEq, Repr

/-- Embedding of `clients_search` (src/app.py lines 118-165).  `idp` is the identity
provider oracle, `api` the accounting API oracle (applied to the request
the handler builds).  Note that `int(payload.get("limit") or 5)` runs
before any validation, so a bad limit raises (`.error`) even when
`firm_id`/`query` are missing.  Returns (result, new state, refresh
tokens sent to the identity provider). -/
def clients_search (idp : String → IdpResponse)
    (api : ContactsRequest → ApiResponse) (now : Int)
    (st : StoreState) (p : SearchPayload) :
    Except PyErr (JVal × Nat) × StoreState × List String :=
  let firm_id := p.firm_id
  let query := pyStrip (p.query.getD "")
  match pyInt (if pyTruthy p.limit then p.limit else PyVal.vint 5) with
  | .error e => (.error e, st, [])
  | .ok limit =>
    if !(truthyS firm_id && query != "") then
      (.ok (JVal.obj [("ok", JVal.bool false),
        ("error", JVal.str "firm_id and query required")], 400), st, [])
    else
      match lookupA st.firms (firm_id.getD "") with
      | none =>
        (.ok (JVal.obj [("ok", JVal.bool false),
          ("error", JVal.str "firm not connected")], 400), st, [])
      | some firm =>
        match refresh_access_token idp now st (firm_id.getD "") with
        | (.error e, st1, calls) => (.error e, st1, calls)
        | (.ok access_token, st1, calls) =>
          let whereParam := "Name.Contains(\"" ++ query ++ "\")"
          let resp := api (ContactsRequest.mk ("Bearer " ++ access_token)
            firm.tenant_id whereParam)
          if resp.status_code != 200 then
            (.ok (JVal.obj [("ok", JVal.bool false),
              ("error", JVal.str resp.text)], resp.status_code), st1, calls)
          else
            let contacts := pySliceTo (resp.Contacts.getD []) limit
            let options := contacts.filterMap optionOf
            (.ok (JVal.obj [("ok", JVal.bool true),
              ("options", JVal.arr options)], 200), st1, calls)

/-- Body of `POST /clients/resolve`. -/
structure ResolvePayload where
  firm_id : Option String
  client_id : Option String
deriving DecidableEq, Repr

/-- JSON of an optional string: Python `None` becomes `null`. -/
def jopt : Option String → JVal
  | none => JVal.null
  | some s => JVal.str s

/-- Embedding of `clients_resolve` (src/app.py lines 167-214): fetch a single contact
and flatten its first phone and first address into a flat object. -/
def clients_resolve (idp : String → IdpResponse)
    (api : ContactsRequest → ApiResponse) (now : Int)
    (st : StoreState) (p : ResolvePayload) :
    Except PyErr (JVal × Nat) × StoreState × List String :=
  let firm_id := p.firm_id
  let client_id := p.client_id
  if !(truthyS firm_id && truthyS client_id) then
    (.ok (JVal.obj [("ok", JVal.bool false),
      ("error", JVal.str "firm_id and client_id required")], 400), st, [])
  else
    match lookupA st.firms (firm_id.getD "") with
    | none =>
      (.ok (JVal.obj [("ok", JVal.bool false),
        ("error", JVal.str "firm not connected")], 400), st, [])
    | some firm =>
      match refresh_access_token idp now st (firm_id.getD "") with
      | (.error e, st1, calls) => (.error e, st1, calls)
      | (.ok access_token, st1, calls) =>
        let resp := api (ContactsRequest.mk ("Bearer " ++ access_token)
          firm.tenant_id (client_id.getD ""))
        if resp.status_code != 200 then
          (.ok (JVal.obj [("ok", JVal.bool false),
            ("error", JVal.str resp.text)], resp.status_code), st1, calls)
        else
          let c := (orList resp.Contacts [emptyContact]).headD emptyContact
          let address := (orList c.Addresses [emptyAddress]).headD emptyAddress
          let phone := ((orList c.Phones [emptyPhone]).headD emptyPhone).PhoneNumber
          (.ok (JVal.obj [("ok", JVal.bool true),
            ("client_id", jopt c.ContactID),
            ("full_name", jopt c.Name),
            ("email", jopt c.EmailAddress),
            ("phone", jopt phone),
            ("address_line1", jopt address.AddressLine1),
            ("city", jopt address.City),
            ("state", jopt address.Region),
            ("postcode", jopt address.PostalCode),
            ("country", jopt address.Country)], 200), st1, calls)

/-- The search handler's tail (src/app.py lines 151-165) as a function of
the accounting API response and the converted limit: used to state what
`clients_search` replies once validation, firm lookup and token refresh
have gone through. -/
def searchResponse (resp : ApiResponse) (limit : Int) : JVal × Nat :=
  if resp.status_code != 200 then
    (JVal.obj [("ok", JVal.bool false), ("error", JVal.str resp.text)],
      resp.status_code)
  else
    (JVal.obj [("ok", JVal.bool true),
      ("options", JVal.arr ((pySliceTo (resp.Contacts.getD []) limit).filterMap
        optionOf))], 200)

/-- The resolve handler's tail (src/app.py lines 196-214) as a function of
the accounting API response. -/
def resolveResponse (resp : ApiResponse) : JVal × Nat :=
  if resp.status_code != 200 then
    (JVal.obj [("ok", JVal.bool false), ("error", JVal.str resp.text)],
      resp.status_code)
  else
    let c := (orList resp.Contacts [emptyContact]).headD emptyContact
    let address := (orList c.Addresses [emptyAddress]).headD emptyAddress
    let phone := ((orList c.Phones [emptyPhone]).headD emptyPhone).PhoneNumber
    (JVal.obj [("ok", JVal.bool true),
      ("client_id", jopt c.ContactID),
      ("full_name", jopt c.Name),
      ("email", jopt c.EmailAddress),
      ("phone", jopt phone),
      ("address_line1", jopt address.AddressLine1),
      ("city", jopt address.City),
      ("state", jopt address.Region),
      ("postcode", jopt address.PostalCode),
      ("country", jopt address.Country)], 200)

/-! ### Helper lemmas about the dictionary model -/

theorem lookupA_insertA_self {α : Type} (m : List (String × α)) (k : String)
    (v : α) : lookupA (insertA m k v) k = some v := by
  simp [lookupA, insertA, List.find?]

theorem lookupA_removeA_self {α : Type} (m : List (String × α)) (k : String) :
    lookupA (removeA m k) k = none := by
  induction m with
  | nil => simp [lookupA, removeA]
  | cons p m ih =>
    by_cases h : p.1 = k <;> simp_all [lookupA, removeA, List.find?]

/-! ### Theorems for the claims -/

/-- C4: for every firm_id with a cached token whose expires_at is more
than 60 seconds after the current time, the Token Refresher returns that
cached access token unchanged, performs no network call (empty call
list), and leaves the Credential Store and Token Cache unmodified. -/
theorem C4_fresh_cache_reused (idp : String → IdpResponse) (now : Int)
    (st : StoreState) (firm_id : String) (ct : CachedToken)
    (hct : lookupA st.cache firm_id = some ct)
    (hfresh : ct.expires_at > now + 60) :
    refresh_access_token idp now st firm_id = (.ok ct.access_token, st, []) := by
  simp [refresh_access_token, hct, hfresh]

/-- Witness for C4 at a concrete state. -/
theorem C4_fresh_cache_reused_witness :
    lookupA (StoreState.mk [] [("f", CachedToken.mk "a" 100)]).cache "f" =
      some (CachedToken.mk "a" 100) ∧
    (CachedToken.mk "a" 100).expires_at > (0 : Int) + 60 ∧
    refresh_access_token (fun _ => IdpResponse.mk 500 "" none none none) 0
      (StoreState.mk [] [("f", CachedToken.mk "a" 100)]) "f" =
      (.ok "a", StoreState.mk [] [("f", CachedToken.mk "a" 100)], []) :=
  ⟨by decide, by decide,
    C4_fresh_cache_reused (fun _ => IdpResponse.mk 500 "" none none none) 0
      (StoreState.mk [] [("f", CachedToken.mk "a" 100)]) "f"
      (CachedToken.mk "a" 100) (by decide) (by decide)⟩

/-- C6: a connect request with non-empty firm_id, tenant_id and
refresh_token overwrites the Firm entry, removes any existing
CachedToken for that firm_id, and replies `{ok:true, firm_id}` with
status 200. -/
theorem C6_connect_stores_firm (st : StoreState) (f t r : String)
    (hf : f ≠ "") (ht : t ≠ "") (hr : r ≠ "") :
    firms_connect st (ConnectPayload.mk (some f) (some t) (some r)) =
      ((JVal.obj [("ok", JVal.bool true), ("firm_id", JVal.str f)], 200),
        StoreState.mk (insertA st.firms f (Firm.mk t r)) (removeA st.cache f)) ∧
    lookupA (insertA st.firms f (Firm.mk t r)) f = some (Firm.mk t r) ∧
    lookupA (removeA st.cache f) f = none := by
  refine ⟨?_, lookupA_insertA_self _ _ _, lookupA_removeA_self _ _⟩
  simp [firms_connect, truthyS, hf, ht, hr]

/-- Witness for C6 at a concrete state. -/
theorem C6_connect_stores_firm_witness :
    ("f" : String) ≠ "" ∧ ("t" : String) ≠ "" ∧ ("r" : String) ≠ "" ∧
    (firms_connect (StoreState.mk [] [("f", CachedToken.mk "a" 100)])
        (ConnectPayload.mk (some "f") (some "t") (some "r")) =
      ((JVal.obj [("ok", JVal.bool true), ("firm_id", JVal.str "f")], 200),
        StoreState.mk (insertA [] "f" (Firm.mk "t" "r"))
          (removeA [("f", CachedToken.mk "a" 100)] "f")) ∧
      lookupA (insertA [] "f" (Firm.mk "t" "r")) "f" = some (Firm.mk "t" "r") ∧
      lookupA (removeA [("f", CachedToken.mk "a" 100)] "f") "f" = none) :=
  ⟨by decide, by decide, by decide,
    C6_connect_stores_firm (StoreState.mk [] [("f", CachedToken.mk "a" 100)])
      "f" "t" "r" (by decide) (by decide) (by decide)⟩

/-- Once the cache check has failed and the firm exists, exactly one
refresh call is made, carrying the firm's stored refresh token —
whatever the provider answers. -/
theorem refresh_after_miss_calls (idp : String → IdpResponse) (now : Int)
    (st : StoreState) (fid : String) (firm : Firm)
    (hfirm : lookupA st.firms fid = some firm) :
    (refresh_after_miss idp now st fid).2.2 = [firm.refresh_token] := by
  simp only [refresh_after_miss, hfirm]
  generalize idp firm.refresh_token = resp
  rcases resp with ⟨sc, tx, a, r, ei⟩
  by_cases h : (sc != 200) = true <;> cases a <;> cases r <;> simp [h]

/-- A stale (or absent) cache entry sends the refresher to the
refresh-after-miss path. -/
theorem refresh_access_token_of_stale (idp : String → IdpResponse) (now : Int)
    (st : StoreState) (fid : String)
    (hmiss : ∀ ct, lookupA st.cache fid = some ct → ¬(ct.expires_at > now + 60)) :
    refresh_access_token idp now st fid = refresh_after_miss idp now st fid := by
  unfold refresh_access_token
  cases hc : lookupA st.cache fid with
  | none => rfl
  | some ct => simp [hmiss ct hc]

/-- C5: a successful refresh returns the fresh access token, makes exactly
one provider call carrying the previously stored refresh token, stores
the newly issued refresh token for the firm, and a second, later refresh
(once the new access token is stale) sends that new refresh token to the
provider, not the original. -/
theorem C5_refresh_rotation (idp : String → IdpResponse) (now : Int)
    (st : StoreState) (fid atok rt2 t : String) (firm : Firm) (e : Int)
    (hmiss : ∀ ct, lookupA st.cache fid = some ct → ¬(ct.expires_at > now + 60))
    (hfirm : lookupA st.firms fid = some firm)
    (hidp : idp firm.refresh_token =
      IdpResponse.mk 200 t (some atok) (some rt2) (some e)) :
    (refresh_access_token idp now st fid).1 = .ok atok ∧
    (refresh_access_token idp now st fid).2.2 = [firm.refresh_token] ∧
    lookupA (refresh_access_token idp now st fid).2.1.firms fid =
      some (Firm.mk firm.tenant_id rt2) ∧
    ∀ (idp2 : String → IdpResponse) (now2 : Int),
      ¬(now + e > now2 + 60) →
      (refresh_access_token idp2 now2
        (refresh_access_token idp now st fid).2.1 fid).2.2 = [rt2] := by
  have hra := refresh_access_token_of_stale idp now st fid hmiss
  have hram : refresh_after_miss idp now st fid =
      (.ok atok,
        StoreState.mk (insertA st.firms fid (Firm.mk firm.tenant_id rt2))
          (insertA st.cache fid (CachedToken.mk atok (now + e))),
        [firm.refresh_token]) := by
    simp only [refresh_after_miss, hfirm]
    rw [hidp]
    simp
  refine ⟨by rw [hra, hram], by rw [hra, hram], ?_, ?_⟩
  · rw [hra, hram]
    exact lookupA_insertA_self _ _ _
  · intro idp2 now2 h2
    rw [hra, hram]
    have hc2 : lookupA (insertA st.cache fid (CachedToken.mk atok (now + e)))
        fid = some (CachedToken.mk atok (now + e)) := lookupA_insertA_self _ _ _
    have hstale : ∀ ct, lookupA (insertA st.cache fid
        (CachedToken.mk atok (now + e))) fid = some ct →
        ¬(ct.expires_at > now2 + 60) := by
      intro ct hct
      rw [hc2] at hct
      cases hct
      exact h2
    rw [refresh_access_token_of_stale idp2 now2 _ fid hstale]
    exact refresh_after_miss_calls idp2 now2 _ fid (Firm.mk firm.tenant_id rt2)
      (lookupA_insertA_self _ _ _)

/-- Witness for C5 at a concrete state and provider. -/
theorem C5_refresh_rotation_witness :
    (refresh_access_token
        (fun _ => IdpResponse.mk 200 "" (some "AT") (some "RT2") (some 100)) 0
        (StoreState.mk [("f", Firm.mk "t" "r1")] []) "f").1 = .ok "AT" ∧
    (refresh_access_token
        (fun _ => IdpResponse.mk 200 "" (some "AT") (some "RT2") (some 100)) 0
        (StoreState.mk [("f", Firm.mk "t" "r1")] []) "f").2.2 = ["r1"] ∧
    lookupA (refresh_access_token
        (fun _ => IdpResponse.mk 200 "" (some "AT") (some "RT2") (some 100)) 0
        (StoreState.mk [("f", Firm.mk "t" "r1")] []) "f").2.1.firms "f" =
      some (Firm.mk "t" "RT2") ∧
    ∀ (idp2 : String → IdpResponse) (now2 : Int),
      ¬((0 : Int) + 100 > now2 + 60) →
      (refresh_access_token idp2 now2
        (refresh_access_token
          (fun _ => IdpResponse.mk 200 "" (some "AT") (some "RT2") (some 100)) 0
          (StoreState.mk [("f", Firm.mk "t" "r1")] []) "f").2.1 "f").2.2 = ["RT2"] :=
  C5_refresh_rotation
    (fun _ => IdpResponse.mk 200 "" (some "AT") (some "RT2") (some 100)) 0
    (StoreState.mk [("f", Firm.mk "t" "r1")] []) "f" "AT" "RT2" "" (Firm.mk "t" "r1")
    100 (by intro ct hct; simp [lookupA] at hct) (by decide) rfl

/-- Fresh-cache path of the refresher, as a reusable lemma. -/
theorem refresh_access_token_fresh (idp : String → IdpResponse) (now : Int)
    (st : StoreState) (fid : String) (ct : CachedToken)
    (hct : lookupA st.cache fid = some ct)
    (hfresh : ct.expires_at > now + 60) :
    refresh_access_token idp now st fid = (.ok ct.access_token, st, []) := by
  simp [refresh_access_token, hct, hfresh]

/-- Successful refresh path of the refresher, as a reusable lemma. -/
theorem refresh_access_token_success (idp : String → IdpResponse) (now : Int)
    (st : StoreState) (fid atok rt2 t : String) (firm : Firm) (e : Int)
    (hmiss : ∀ ct, lookupA st.cache fid = some ct → ¬(ct.expires_at > now + 60))
    (hfirm : lookupA st.firms fid = some firm)
    (hidp : idp firm.refresh_token =
      IdpResponse.mk 200 t (some atok) (some rt2) (some e)) :
    refresh_access_token idp now st fid =
      (.ok atok,
        StoreState.mk (insertA st.firms fid (Firm.mk firm.tenant_id rt2))
          (insertA st.cache fid (CachedToken.mk atok (now + e))),
        [firm.refresh_token]) := by
  rw [refresh_access_token_of_stale idp now st fid hmiss]
  simp only [refresh_after_miss, hfirm]
  rw [hidp]
  simp

/-- Failed refresh path of the refresher, as a reusable lemma. -/
theorem refresh_access_token_idp_error (idp : String → IdpResponse) (now : Int)
    (st : StoreState) (fid : String) (firm : Firm)
    (hmiss : ∀ ct, lookupA st.cache fid = some ct → ¬(ct.expires_at > now + 60))
    (hfirm : lookupA st.firms fid = some firm)
    (hbad : (idp firm.refresh_token).status_code ≠ 200) :
    refresh_access_token idp now st fid =
      (.error (.exc ("Token refresh failed: " ++ (idp firm.refresh_token).text)),
        st, [firm.refresh_token]) := by
  rw [refresh_access_token_of_stale idp now st fid hmiss]
  simp only [refresh_after_miss, hfirm]
  simp [hbad]

/-- Unknown-firm path of the refresher, as a reusable lemma. -/
theorem refresh_access_token_not_connected (idp : String → IdpResponse)
    (now : Int) (st : StoreState) (fid : String)
    (hcache : lookupA st.cache fid = none)
    (hfirm : lookupA st.firms fid = none) :
    refresh_access_token idp now st fid =
      (.error (.exc "Firm not connected"), st, []) := by
  have hmiss : ∀ ct, lookupA st.cache fid = some ct →
      ¬(ct.expires_at > now + 60) := by
    intro ct hct
    rw [hcache] at hct
    cases hct
  rw [refresh_access_token_of_stale idp now st fid hmiss]
  simp [refresh_after_miss, hfirm]

/-- A search that passes validation and whose token refresh succeeds
replies with `searchResponse` of the accounting API's answer to the
request the handler builds. -/
theorem clients_search_connected (idp : String → IdpResponse)
    (api : ContactsRequest → ApiResponse) (now : Int) (st st1 : StoreState)
    (fid q atok : String) (calls : List String) (firm : Firm) (lim : PyVal)
    (N : Int)
    (hf : fid ≠ "") (hq : pyStrip q ≠ "")
    (hlim : pyInt (if pyTruthy lim then lim else PyVal.vint 5) = .ok N)
    (hfirm : lookupA st.firms fid = some firm)
    (hrefresh : refresh_access_token idp now st fid = (.ok atok, st1, calls)) :
    clients_search idp api now st (SearchPayload.mk (some fid) (some q) lim) =
      (.ok (searchResponse (api (ContactsRequest.mk ("Bearer " ++ atok)
        firm.tenant_id ("Name.Contains(\"" ++ pyStrip q ++ "\")"))) N),
        st1, calls) := by
  simp [clients_search, truthyS, hf, hq, hlim, hfirm, hrefresh, searchResponse]
  split <;> simp

/-- A search that passes validation but whose token refresh raises
propagates the exception (the framework turns it into a 500). -/
theorem clients_search_refresh_error (idp : String → IdpResponse)
    (api : ContactsRequest → ApiResponse) (now : Int) (st st1 : StoreState)
    (fid q : String) (calls : List String) (firm : Firm) (lim : PyVal)
    (err : PyErr) (N : Int)
    (hf : fid ≠ "") (hq : pyStrip q ≠ "")
    (hlim : pyInt (if pyTruthy lim then lim else PyVal.vint 5) = .ok N)
    (hfirm : lookupA st.firms fid = some firm)
    (hrefresh : refresh_access_token idp now st fid = (.error err, st1, calls)) :
    clients_search idp api now st (SearchPayload.mk (some fid) (some q) lim) =
      (.error err, st1, calls) := by
  simp [clients_search, truthyS, hf, hq, hlim, hfirm, hrefresh]

/-- A resolve that passes validation and whose token refresh succeeds
replies with `resolveResponse` of the accounting API's answer. -/
theorem clients_resolve_connected (idp : String → IdpResponse)
    (api : ContactsRequest → ApiResponse) (now : Int) (st st1 : StoreState)
    (fid cid atok : String) (calls : List String) (firm : Firm)
    (hf : fid ≠ "") (hc : cid ≠ "")
    (hfirm : lookupA st.firms fid = some firm)
    (hrefresh : refresh_access_token idp now st fid = (.ok atok, st1, calls)) :
    clients_resolve idp api now st (ResolvePayload.mk (some fid) (some cid)) =
      (.ok (resolveResponse (api (ContactsRequest.mk ("Bearer " ++ atok)
        firm.tenant_id cid))), st1, calls) := by
  simp [clients_resolve, truthyS, hf, hc, hfirm, hrefresh, resolveResponse]
  split <;> simp

/-- A resolve that passes validation but whose token refresh raises
propagates the exception (the framework turns it into a 500). -/
theorem clients_resolve_refresh_error (idp : String → IdpResponse)
    (api : ContactsRequest → ApiResponse) (now : Int) (st st1 : StoreState)
    (fid cid : String) (calls : List String) (firm : Firm) (err : PyErr)
    (hf : fid ≠ "") (hc : cid ≠ "")
    (hfirm : lookupA st.firms fid = some firm)
    (hrefresh : refresh_access_token idp now st fid = (.error err, st1, calls)) :
    clients_resolve idp api now st (ResolvePayload.mk (some fid) (some cid)) =
      (.error err, st1, calls) := by
  simp [clients_resolve, truthyS, hf, hc, hfirm, hrefresh]

/-- An absent cache entry trivially satisfies the staleness premise. -/
theorem stale_of_no_cache (st : StoreState) (now : Int) (fid : String)
    (hcache : lookupA st.cache fid = none) :
    ∀ ct, lookupA st.cache fid = some ct → ¬(ct.expires_at > now + 60) := by
  intro ct hct
  rw [hcache] at hct
  cases hct

/-- C8 (amended): a firm_id absent from the Credential Store makes the
Token Refresher fail with "Firm not connected" (provided no fresh cached
token short-circuits it) and makes search and resolve reply 400 with a
not-connected error.  A Firm entry that is present but has an empty
refresh token is NOT caught by this check — see the counterexample. -/
theorem C8_not_connected_amended (idp : String → IdpResponse)
    (api : ContactsRequest → ApiResponse) (now : Int) (st : StoreState)
    (fid q cid : String)
    (hf : fid ≠ "") (hq : pyStrip q ≠ "") (hc : cid ≠ "")
    (hcache : lookupA st.cache fid = none)
    (hfirm : lookupA st.firms fid = none) :
    refresh_access_token idp now st fid =
      (.error (.exc "Firm not connected"), st, []) ∧
    clients_search idp api now st
        (SearchPayload.mk (some fid) (some q) PyVal.vnone) =
      (.ok (JVal.obj [("ok", JVal.bool false),
        ("error", JVal.str "firm not connected")], 400), st, []) ∧
    clients_resolve idp api now st (ResolvePayload.mk (some fid) (some cid)) =
      (.ok (JVal.obj [("ok", JVal.bool false),
        ("error", JVal.str "firm not connected")], 400), st, []) := by
  refine ⟨refresh_access_token_not_connected idp now st fid hcache hfirm, ?_, ?_⟩
  · simp [clients_search, truthyS, pyTruthy, pyInt, hf, hq, hfirm]
  · simp [clients_resolve, truthyS, hf, hc, hfirm]

/-- Witness for C8 (amended) at a concrete empty store. -/
theorem C8_not_connected_amended_witness :
    refresh_access_token (fun _ => IdpResponse.mk 500 "" none none none) 0
        (StoreState.mk [] []) "f" =
      (.error (.exc "Firm not connected"), StoreState.mk [] [], []) ∧
    clients_search (fun _ => IdpResponse.mk 500 "" none none none)
        (fun _ => ApiResponse.mk 200 "" (some [])) 0 (StoreState.mk [] [])
        (SearchPayload.mk (some "f") (some "q") PyVal.vnone) =
      (.ok (JVal.obj [("ok", JVal.bool false),
        ("error", JVal.str "firm not connected")], 400), StoreState.mk [] [], []) ∧
    clients_resolve (fun _ => IdpResponse.mk 500 "" none none none)
        (fun _ => ApiResponse.mk 200 "" (some [])) 0 (StoreState.mk [] [])
        (ResolvePayload.mk (some "f") (some "c")) =
      (.ok (JVal.obj [("ok", JVal.bool false),
        ("error", JVal.str "firm not connected")], 400), StoreState.mk [] [], []) :=
  C8_not_connected_amended (fun _ => IdpResponse.mk 500 "" none none none)
    (fun _ => ApiResponse.mk 200 "" (some [])) 0 (StoreState.mk [] [])
    "f" "q" "c" (by decide) (by decide) (by decide) rfl rfl

/-- C8 counterexample: the code checks only `if not firm`, so a connected
firm whose stored refresh token is the empty string is NOT treated as
"not connected": the refresher proceeds to call the identity provider
with the empty refresh token (one network call carrying `""`), and a
search for that firm returns 200, not a 400 not-connected error. -/
theorem C8_empty_refresh_token_counterexample :
    refresh_access_token
        (fun _ => IdpResponse.mk 200 "" (some "AT") (some "RT2") (some 100)) 0
        (StoreState.mk [("f", Firm.mk "t" "")] []) "f" =
      (.ok "AT",
        StoreState.mk [("f", Firm.mk "t" "RT2")] [("f", CachedToken.mk "AT" 100)],
        [""]) ∧
    (clients_search
        (fun _ => IdpResponse.mk 200 "" (some "AT") (some "RT2") (some 100))
        (fun _ => ApiResponse.mk 200 "" (some [])) 0
        (StoreState.mk [("f", Firm.mk "t" "")] [])
        (SearchPayload.mk (some "f") (some "q") PyVal.vnone)).1 =
      .ok (JVal.obj [("ok", JVal.bool true), ("options", JVal.arr [])], 200) := by
  constructor <;> rfl

/-- C3 (amended): a non-200 answer from the accounting API is propagated
by search and resolve as an error response with the upstream status code
and the upstream body as the error message; but a non-200 answer from
the identity provider is NOT propagated this way: the refresher raises
an exception carrying the provider's body, which leaves the handler
uncaught (the framework turns it into a default 500). -/
theorem C3_upstream_error_amended (idpG idpB : String → IdpResponse)
    (now : Int) (st : StoreState) (fid q cid atok rt2 tG : String)
    (firm : Firm) (e : Int) (s : Nat) (tx : String)
    (cs : Option (List ContactJson))
    (hf : fid ≠ "") (hq : pyStrip q ≠ "") (hc : cid ≠ "")
    (hcache : lookupA st.cache fid = none)
    (hfirm : lookupA st.firms fid = some firm)
    (hG : idpG firm.refresh_token =
      IdpResponse.mk 200 tG (some atok) (some rt2) (some e))
    (hB : (idpB firm.refresh_token).status_code ≠ 200)
    (hs : s ≠ 200) :
    ((clients_search idpG (fun _ => ApiResponse.mk s tx cs) now st
        (SearchPayload.mk (some fid) (some q) PyVal.vnone)).1 =
      .ok (JVal.obj [("ok", JVal.bool false), ("error", JVal.str tx)], s)) ∧
    ((clients_resolve idpG (fun _ => ApiResponse.mk s tx cs) now st
        (ResolvePayload.mk (some fid) (some cid))).1 =
      .ok (JVal.obj [("ok", JVal.bool false), ("error", JVal.str tx)], s)) ∧
    ((clients_search idpB (fun _ => ApiResponse.mk s tx cs) now st
        (SearchPayload.mk (some fid) (some q) PyVal.vnone)).1 =
      .error (.exc ("Token refresh failed: " ++ (idpB firm.refresh_token).text))) ∧
    ((clients_resolve idpB (fun _ => ApiResponse.mk s tx cs) now st
        (ResolvePayload.mk (some fid) (some cid))).1 =
      .error (.exc ("Token refresh failed: " ++ (idpB firm.refresh_token).text))) := by
  have hmiss := stale_of_no_cache st now fid hcache
  have hok := refresh_access_token_success idpG now st fid atok rt2 tG firm e
    hmiss hfirm hG
  have hbad := refresh_access_token_idp_error idpB now st fid firm hmiss hfirm hB
  refine ⟨?_, ?_, ?_, ?_⟩
  · rw [clients_search_connected idpG _ now st _ fid q atok _ firm PyVal.vnone 5
      hf hq rfl hfirm hok]
    simp [searchResponse, hs]
  · rw [clients_resolve_connected idpG _ now st _ fid cid atok _ firm
      hf hc hfirm hok]
    simp [resolveResponse, hs]
  · rw [clients_search_refresh_error idpB _ now st _ fid q _ firm PyVal.vnone _ 5
      hf hq rfl hfirm hbad]
  · rw [clients_resolve_refresh_error idpB _ now st _ fid cid _ firm _
      hf hc hfirm hbad]

/-- Witness for C3 (amended) at a concrete store and concrete upstreams. -/
theorem C3_upstream_error_amended_witness :
    ((clients_search (fun _ => IdpResponse.mk 200 "" (some "AT") (some "RT2") (some 100))
        (fun _ => ApiResponse.mk 404 "no such contact" none) 0
        (StoreState.mk [("f", Firm.mk "t" "r1")] [])
        (SearchPayload.mk (some "f") (some "q") PyVal.vnone)).1 =
      .ok (JVal.obj [("ok", JVal.bool false),
        ("error", JVal.str "no such contact")], 404)) ∧
    ((clients_resolve (fun _ => IdpResponse.mk 200 "" (some "AT") (some "RT2") (some 100))
        (fun _ => ApiResponse.mk 404 "no such contact" none) 0
        (StoreState.mk [("f", Firm.mk "t" "r1")] [])
        (ResolvePayload.mk (some "f") (some "c"))).1 =
      .ok (JVal.obj [("ok", JVal.bool false),
        ("error", JVal.str "no such contact")], 404)) ∧
    ((clients_search (fun _ => IdpResponse.mk 503 "down" none none none)
        (fun _ => ApiResponse.mk 404 "no such contact" none) 0
        (StoreState.mk [("f", Firm.mk "t" "r1")] [])
        (SearchPayload.mk (some "f") (some "q") PyVal.vnone)).1 =
      .error (.exc ("Token refresh failed: " ++
        ((fun (_ : String) => IdpResponse.mk 503 "down" none none none) "r1").text))) ∧
    ((clients_resolve (fun _ => IdpResponse.mk 503 "down" none none none)
        (fun _ => ApiResponse.mk 404 "no such contact" none) 0
        (StoreState.mk [("f", Firm.mk "t" "r1")] [])
        (ResolvePayload.mk (some "f") (some "c"))).1 =
      .error (.exc ("Token refresh failed: " ++
        ((fun (_ : String) => IdpResponse.mk 503 "down" none none none) "r1").text))) :=
  C3_upstream_error_amended
    (fun _ => IdpResponse.mk 200 "" (some "AT") (some "RT2") (some 100))
    (fun _ => IdpResponse.mk 503 "down" none none none) 0
    (StoreState.mk [("f", Firm.mk "t" "r1")] []) "f" "q" "c" "AT" "RT2" ""
    (Firm.mk "t" "r1") 100 404 "no such contact" none
    (by decide) (by decide) (by decide) rfl rfl rfl (by decide) (by decide)

/-- C3 counterexample: with the identity provider answering 503 "down",
the search handler does not reply with status 503 and message "down" —
it raises the refresher's exception (so the framework answers 500). -/
theorem C3_idp_error_counterexample :
    (clients_search (fun _ => IdpResponse.mk 503 "down" none none none)
        (fun _ => ApiResponse.mk 200 "" (some [])) 0
        (StoreState.mk [("f", Firm.mk "t" "r1")] [])
        (SearchPayload.mk (some "f") (some "q") PyVal.vnone)).1 =
      .error (.exc "Token refresh failed: down") := by rfl

/-- C1 (amended): the limit field is optional with default 5, but any
falsy limit — including 0 — is treated exactly like an absent one and
defaults to 5 (so a limit of 0 does NOT give an empty options list, see
the counterexample); for every positive limit N the response carries at
most N options, in the order the upstream API returned the contacts. -/
theorem C1_search_limit_amended (idp : String → IdpResponse) (now : Int)
    (st : StoreState) (fid q tx : String) (firm : Firm) (ct : CachedToken)
    (contacts : List ContactJson) (N : Int)
    (hf : fid ≠ "") (hq : pyStrip q ≠ "") (hN : 0 < N)
    (hfirm : lookupA st.firms fid = some firm)
    (hct : lookupA st.cache fid = some ct)
    (hfresh : ct.expires_at > now + 60) :
    (clients_search idp (fun _ => ApiResponse.mk 200 tx (some contacts)) now st
        (SearchPayload.mk (some fid) (some q) PyVal.vnone) =
      clients_search idp (fun _ => ApiResponse.mk 200 tx (some contacts)) now st
        (SearchPayload.mk (some fid) (some q) (PyVal.vint 5))) ∧
    (clients_search idp (fun _ => ApiResponse.mk 200 tx (some contacts)) now st
        (SearchPayload.mk (some fid) (some q) (PyVal.vint 0)) =
      clients_search idp (fun _ => ApiResponse.mk 200 tx (some contacts)) now st
        (SearchPayload.mk (some fid) (some q) (PyVal.vint 5))) ∧
    ((clients_search idp (fun _ => ApiResponse.mk 200 tx (some contacts)) now st
        (SearchPayload.mk (some fid) (some q) (PyVal.vint N))).1 =
      .ok (JVal.obj [("ok", JVal.bool true), ("options",
        JVal.arr ((contacts.take N.toNat).filterMap optionOf))], 200)) ∧
    ((contacts.take N.toNat).filterMap optionOf).length ≤ N.toNat ∧
    List.Sublist ((contacts.take N.toNat).filterMap optionOf)
      (contacts.filterMap optionOf) := by
  have hN0 : N ≠ 0 := by omega
  have hlim : pyInt (if pyTruthy (PyVal.vint N) then PyVal.vint N
      else PyVal.vint 5) = .ok N := by
    simp [pyTruthy, pyInt, hN0]
  have hrefresh := refresh_access_token_fresh idp now st fid ct hct hfresh
  refine ⟨rfl, rfl, ?_, ?_, ?_⟩
  · rw [clients_search_connected idp _ now st _ fid q ct.access_token _ firm
      (PyVal.vint N) N hf hq hlim hfirm hrefresh]
    simp [searchResponse, pySliceTo, Int.le_of_lt hN]
  · exact le_trans (List.length_filterMap_le _ _) (List.length_take_le _ _)
  · exact List.Sublist.filterMap optionOf (List.take_sublist _ _)

/-- Witness for C1 (amended) at a concrete store, one upstream contact and
limit 2. -/
theorem C1_search_limit_amended_witness :
    (clients_search (fun _ => IdpResponse.mk 500 "" none none none)
        (fun _ => ApiResponse.mk 200 "" (some [ContactJson.mk (some "c1")
          (some "Acme Co") (some "a@acme.com") none none])) 0
        (StoreState.mk [("f", Firm.mk "t" "r1")] [("f", CachedToken.mk "a" 1000)])
        (SearchPayload.mk (some "f") (some "Acme") PyVal.vnone) =
      clients_search (fun _ => IdpResponse.mk 500 "" none none none)
        (fun _ => ApiResponse.mk 200 "" (some [ContactJson.mk (some "c1")
          (some "Acme Co") (some "a@acme.com") none none])) 0
        (StoreState.mk [("f", Firm.mk "t" "r1")] [("f", CachedToken.mk "a" 1000)])
        (SearchPayload.mk (some "f") (some "Acme") (PyVal.vint 5))) ∧
    (clients_search (fun _ => IdpResponse.mk 500 "" none none none)
        (fun _ => ApiResponse.mk 200 "" (some [ContactJson.mk (some "c1")
          (some "Acme Co") (some "a@acme.com") none none])) 0
        (StoreState.mk [("f", Firm.mk "t" "r1")] [("f", CachedToken.mk "a" 1000)])
        (SearchPayload.mk (some "f") (some "Acme") (PyVal.vint 0)) =
      clients_search (fun _ => IdpResponse.mk 500 "" none none none)
        (fun _ => ApiResponse.mk 200 "" (some [ContactJson.mk (some "c1")
          (some "Acme Co") (some "a@acme.com") none none])) 0
        (StoreState.mk [("f", Firm.mk "t" "r1")] [("f", CachedToken.mk "a" 1000)])
        (SearchPayload.mk (some "f") (some "Acme") (PyVal.vint 5))) ∧
    ((clients_search (fun _ => IdpResponse.mk 500 "" none none none)
        (fun _ => ApiResponse.mk 200 "" (some [ContactJson.mk (some "c1")
          (some "Acme Co") (some "a@acme.com") none none])) 0
        (StoreState.mk [("f", Firm.mk "t" "r1")] [("f", CachedToken.mk "a" 1000)])
        (SearchPayload.mk (some "f") (some "Acme") (PyVal.vint 2))).1 =
      .ok (JVal.obj [("ok", JVal.bool true), ("options",
        JVal.arr [JVal.obj [("id", JVal.str "c1"),
          ("label", JVal.str "Acme Co — a@acme.com")]])], 200)) ∧
    ([JVal.obj [("id", JVal.str "c1"),
        ("label", JVal.str "Acme Co — a@acme.com")]].length ≤ (2 : Int).toNat) ∧
    List.Sublist [JVal.obj [("id", JVal.str "c1"),
        ("label", JVal.str "Acme Co — a@acme.com")]]
      [JVal.obj [("id", JVal.str "c1"),
        ("label", JVal.str "Acme Co — a@acme.com")]] :=
  C1_search_limit_amended (fun _ => IdpResponse.mk 500 "" none none none) 0
    (StoreState.mk [("f", Firm.mk "t" "r1")] [("f", CachedToken.mk "a" 1000)])
    "f" "Acme" "" (Firm.mk "t" "r1") (CachedToken.mk "a" 1000)
    [ContactJson.mk (some "c1") (some "Acme Co") (some "a@acme.com") none none] 2
    (by decide) (by decide) (by decide) rfl rfl (by decide)

/-- C1 counterexample: a search with limit 0 does not return an empty
options list — `int(payload.get("limit") or 5)` turns the falsy 0 into
the default 5, so the one upstream contact is returned. -/
theorem C1_limit_zero_counterexample :
    (clients_search (fun _ => IdpResponse.mk 500 "" none none none)
        (fun _ => ApiResponse.mk 200 "" (some [ContactJson.mk (some "c1")
          (some "Acme Co") (some "a@acme.com") none none])) 0
        (StoreState.mk [("f", Firm.mk "t" "r1")] [("f", CachedToken.mk "a" 1000)])
        (SearchPayload.mk (some "f") (some "Acme") (PyVal.vint 0))).1 =
      .ok (JVal.obj [("ok", JVal.bool true), ("options",
        JVal.arr [JVal.obj [("id", JVal.str "c1"),
          ("label", JVal.str "Acme Co — a@acme.com")]])], 200) := by rfl

/-- C10: the search endpoint converts the limit with int() before any
validation, so a non-numeric limit value makes the handler raise an
uncaught ValueError (framework 500) even when firm_id and query are
missing; and a negative limit N slices `contacts[:N]`, dropping the last
|N| contacts instead of capping the count. -/
theorem C10_limit_conversion (idp : String → IdpResponse)
    (api : ContactsRequest → ApiResponse) (now : Int) (st : StoreState)
    (p : SearchPayload) (s fid q tx : String) (firm : Firm) (ct : CachedToken)
    (contacts : List ContactJson) (N : Int)
    (hlim : p.limit = PyVal.vstr s) (hs : s ≠ "")
    (hparse : pyIntOfString s =
      .error (.valueError ("invalid literal for int() with base 10: " ++ s)))
    (hf : fid ≠ "") (hq : pyStrip q ≠ "") (hN : N < 0)
    (hfirm : lookupA st.firms fid = some firm)
    (hct : lookupA st.cache fid = some ct)
    (hfresh : ct.expires_at > now + 60) :
    (clients_search idp api now st p =
      (.error (.valueError ("invalid literal for int() with base 10: " ++ s)),
        st, [])) ∧
    ((clients_search idp (fun _ => ApiResponse.mk 200 tx (some contacts)) now st
        (SearchPayload.mk (some fid) (some q) (PyVal.vint N))).1 =
      .ok (JVal.obj [("ok", JVal.bool true), ("options",
        JVal.arr ((contacts.take (contacts.length - (-N).toNat)).filterMap
          optionOf))], 200)) := by
  constructor
  · simp [clients_search, hlim, pyTruthy, hs, pyInt, hparse]
  · have hN0 : N ≠ 0 := by omega
    have hcond : pyInt (if pyTruthy (PyVal.vint N) then PyVal.vint N
        else PyVal.vint 5) = .ok N := by
      simp [pyTruthy, pyInt, hN0]
    have hrefresh := refresh_access_token_fresh idp now st fid ct hct hfresh
    rw [clients_search_connected idp _ now st _ fid q ct.access_token _ firm
      (PyVal.vint N) N hf hq hcond hfirm hrefresh]
    have hneg : ¬ (0 : Int) ≤ N := by omega
    simp [searchResponse, pySliceTo, hneg]

/-- Witness for C10: limit "abc" with no firm_id/query raises, and limit
-1 on two upstream contacts drops the second one. -/
theorem C10_limit_conversion_witness :
    (clients_search (fun _ => IdpResponse.mk 500 "" none none none)
        (fun _ => ApiResponse.mk 200 "" (some [])) 0
        (StoreState.mk [("f", Firm.mk "t" "r1")] [("f", CachedToken.mk "a" 1000)])
        (SearchPayload.mk none none (PyVal.vstr "abc")) =
      (.error (.valueError "invalid literal for int() with base 10: abc"),
        StoreState.mk [("f", Firm.mk "t" "r1")] [("f", CachedToken.mk "a" 1000)],
        [])) ∧
    ((clients_search (fun _ => IdpResponse.mk 500 "" none none none)
        (fun _ => ApiResponse.mk 200 "" (some
          [ContactJson.mk (some "c1") (some "A") none none none,
           ContactJson.mk (some "c2") (some "B") none none none])) 0
        (StoreState.mk [("f", Firm.mk "t" "r1")] [("f", CachedToken.mk "a" 1000)])
        (SearchPayload.mk (some "f") (some "q") (PyVal.vint (-1)))).1 =
      .ok (JVal.obj [("ok", JVal.bool true), ("options",
        JVal.arr [JVal.obj [("id", JVal.str "c1"),
          ("label", JVal.str "A")]])], 200)) :=
  C10_limit_conversion (fun _ => IdpResponse.mk 500 "" none none none)
    (fun _ => ApiResponse.mk 200 "" (some [])) 0
    (StoreState.mk [("f", Firm.mk "t" "r1")] [("f", CachedToken.mk "a" 1000)])
    (SearchPayload.mk none none (PyVal.vstr "abc")) "abc" "f" "q" ""
    (Firm.mk "t" "r1") (CachedToken.mk "a" 1000)
    [ContactJson.mk (some "c1") (some "A") none none none,
     ContactJson.mk (some "c2") (some "B") none none none] (-1)
    rfl (by decide) rfl (by decide) (by decide) (by decide) rfl rfl
    (by decide)

/-- C2 (amended): when the upstream contact has no Phones array and no
Addresses array, the resolve endpoint still succeeds (status 200,
ok:true), and the flattened phone and address fields appear as JSON
null — not as empty strings (see the counterexample). -/
theorem C2_resolve_null_amended (idp : String → IdpResponse) (now : Int)
    (st : StoreState) (fid cid tx : String) (firm : Firm) (ct : CachedToken)
    (c : ContactJson)
    (hf : fid ≠ "") (hc : cid ≠ "")
    (hfirm : lookupA st.firms fid = some firm)
    (hct : lookupA st.cache fid = some ct)
    (hfresh : ct.expires_at > now + 60)
    (hph : c.Phones = none ∨ c.Phones = some [PhoneJson.mk none])
    (had : c.Addresses = none ∨ c.Addresses = some [emptyAddress]) :
    (clients_resolve idp (fun _ => ApiResponse.mk 200 tx (some [c])) now st
        (ResolvePayload.mk (some fid) (some cid))).1 =
      .ok (JVal.obj [("ok", JVal.bool true),
        ("client_id", jopt c.ContactID),
        ("full_name", jopt c.Name),
        ("email", jopt c.EmailAddress),
        ("phone", JVal.null),
        ("address_line1", JVal.null),
        ("city", JVal.null),
        ("state", JVal.null),
        ("postcode", JVal.null),
        ("country", JVal.null)], 200) := by
  have hrefresh := refresh_access_token_fresh idp now st fid ct hct hfresh
  rw [clients_resolve_connected idp _ now st _ fid cid ct.access_token _ firm
    hf hc hfirm hrefresh]
  rcases hph with hph | hph <;> rcases had with had | had <;>
    simp [resolveResponse, orList, emptyAddress, emptyPhone, jopt, hph, had]

/-- Witness for C2 (amended) at a concrete contact with no nested
arrays. -/
theorem C2_resolve_null_amended_witness :
    (clients_resolve (fun _ => IdpResponse.mk 500 "" none none none)
        (fun _ => ApiResponse.mk 200 "" (some [ContactJson.mk (some "c1")
          (some "N") (some "n@x") none none])) 0
        (StoreState.mk [("f", Firm.mk "t" "r1")] [("f", CachedToken.mk "a" 1000)])
        (ResolvePayload.mk (some "f") (some "c1"))).1 =
      .ok (JVal.obj [("ok", JVal.bool true),
        ("client_id", jopt (some "c1")),
        ("full_name", jopt (some "N")),
        ("email", jopt (some "n@x")),
        ("phone", JVal.null),
        ("address_line1", JVal.null),
        ("city", JVal.null),
        ("state", JVal.null),
        ("postcode", JVal.null),
        ("country", JVal.null)], 200) :=
  C2_resolve_null_amended (fun _ => IdpResponse.mk 500 "" none none none) 0
    (StoreState.mk [("f", Firm.mk "t" "r1")] [("f", CachedToken.mk "a" 1000)])
    "f" "c1" "" (Firm.mk "t" "r1") (CachedToken.mk "a" 1000)
    (ContactJson.mk (some "c1") (some "N") (some "n@x") none none)
    (by decide) (by decide) rfl rfl (by decide) (Or.inl rfl) (Or.inl rfl)

/-- C2 counterexample: for a contact without Phones/Addresses (and with
no EmailAddress) the response carries JSON null in those fields, and
null is not the empty string the claim demands. -/
theorem C2_resolve_empty_string_counterexample :
    ((clients_resolve (fun _ => IdpResponse.mk 500 "" none none none)
        (fun _ => ApiResponse.mk 200 "" (some [ContactJson.mk (some "c1")
          (some "N") none none none])) 0
        (StoreState.mk [("f", Firm.mk "t" "r1")] [("f", CachedToken.mk "a" 1000)])
        (ResolvePayload.mk (some "f") (some "c1"))).1 =
      .ok (JVal.obj [("ok", JVal.bool true),
        ("client_id", JVal.str "c1"),
        ("full_name", JVal.str "N"),
        ("email", JVal.null),
        ("phone", JVal.null),
        ("address_line1", JVal.null),
        ("city", JVal.null),
        ("state", JVal.null),
        ("postcode", JVal.null),
        ("country", JVal.null)], 200)) ∧
    JVal.null ≠ JVal.str "" :=
  ⟨rfl, fun h => JVal.noConfusion h⟩

/-- C9: when the accounting API answers a resolve with 200 but an absent
or empty Contacts array, the endpoint replies ok:true with client_id,
full_name, email, phone and every address field null, not an error. -/
theorem C9_resolve_empty_contacts (idp : String → IdpResponse) (now : Int)
    (st : StoreState) (fid cid tx : String) (firm : Firm) (ct : CachedToken)
    (cs : Option (List ContactJson))
    (hf : fid ≠ "") (hc : cid ≠ "")
    (hfirm : lookupA st.firms fid = some firm)
    (hct : lookupA st.cache fid = some ct)
    (hfresh : ct.expires_at > now + 60)
    (hcs : cs = none ∨ cs = some []) :
    (clients_resolve idp (fun _ => ApiResponse.mk 200 tx cs) now st
        (ResolvePayload.mk (some fid) (some cid))).1 =
      .ok (JVal.obj [("ok", JVal.bool true),
        ("client_id", JVal.null),
        ("full_name", JVal.null),
        ("email", JVal.null),
        ("phone", JVal.null),
        ("address_line1", JVal.null),
        ("city", JVal.null),
        ("state", JVal.null),
        ("postcode", JVal.null),
        ("country", JVal.null)], 200) := by
  have hrefresh := refresh_access_token_fresh idp now st fid ct hct hfresh
  rw [clients_resolve_connected idp _ now st _ fid cid ct.access_token _ firm
    hf hc hfirm hrefresh]
  rcases hcs with rfl | rfl <;>
    simp [resolveResponse, orList, emptyContact, emptyAddress, emptyPhone, jopt]

/-- Witness for C9 with the Contacts key absent. -/
theorem C9_resolve_empty_contacts_witness :
    (clients_resolve (fun _ => IdpResponse.mk 500 "" none none none)
        (fun _ => ApiResponse.mk 200 "" none) 0
        (StoreState.mk [("f", Firm.mk "t" "r1")] [("f", CachedToken.mk "a" 1000)])
        (ResolvePayload.mk (some "f") (some "c1"))).1 =
      .ok (JVal.obj [("ok", JVal.bool true),
        ("client_id", JVal.null),
        ("full_name", JVal.null),
        ("email", JVal.null),
        ("phone", JVal.null),
        ("address_line1", JVal.null),
        ("city", JVal.null),
        ("state", JVal.null),
        ("postcode", JVal.null),
        ("country", JVal.null)], 200) :=
  C9_resolve_empty_contacts (fun _ => IdpResponse.mk 500 "" none none none) 0
    (StoreState.mk [("f", Firm.mk "t" "r1")] [("f", CachedToken.mk "a" 1000)])
    "f" "c1" "" (Firm.mk "t" "r1") (CachedToken.mk "a" 1000) none
    (by decide) (by decide) rfl rfl (by decide) (Or.inl rfl)

/-- A `dropWhile` leaves a list alone when its first element fails the
predicate. -/
theorem dropWhile_eq_self_of_head (p : Char → Bool) (l : List Char) (c : Char)
    (h : l.head? = some c) (hp : p c = false) : l.dropWhile p = l := by
  cases l with
  | nil => cases h
  | cons a as =>
    obtain rfl : a = c := by simpa using h
    simp [List.dropWhile_cons, hp]

/-- Stripping does nothing when both ends fail the predicate. -/
theorem stripWhile_eq_self (p : Char → Bool) (l : List Char) (c1 c2 : Char)
    (h1 : l.head? = some c1) (hp1 : p c1 = false)
    (h2 : l.getLast? = some c2) (hp2 : p c2 = false) :
    stripWhile p l = l := by
  unfold stripWhile
  rw [dropWhile_eq_self_of_head p l c1 h1 hp1]
  rw [dropWhile_eq_self_of_head p l.reverse c2
    (by rw [List.head?_reverse]; exact h2) hp2]
  exact List.reverse_reverse l

/-- Stripping `" — "` off the right end of a clean-ended list removes
exactly the separator. -/
theorem stripWhile_append_sep (p : Char → Bool) (l : List Char) (c1 c2 : Char)
    (h1 : l.head? = some c1) (hp1 : p c1 = false)
    (h2 : l.getLast? = some c2) (hp2 : p c2 = false)
    (hsp : p ' ' = true) (hdash : p '—' = true) :
    stripWhile p (l ++ [' ', '—', ' ']) = l := by
  unfold stripWhile
  have hne : l ≠ [] := by cases l; cases h1; simp
  rw [dropWhile_eq_self_of_head p (l ++ [' ', '—', ' ']) c1
    (by rw [List.head?_append_of_ne_nil l hne]; exact h1) hp1]
  rw [List.reverse_append]
  have hrev : ([' ', '—', ' '] : List Char).reverse = [' ', '—', ' '] := rfl
  rw [hrev]
  simp only [List.cons_append, List.nil_append, List.dropWhile_cons, hsp, hdash,
    if_true]
  rw [dropWhile_eq_self_of_head p l.reverse c2
    (by rw [List.head?_reverse]; exact h2) hp2]
  exact List.reverse_reverse l

/-- When neither the start of the name nor the end of the email is a
space or em-dash, the label is exactly `name — email`. -/
theorem labelOf_clean (name email : String) (c1 c2 : Char)
    (h1 : name.toList.head? = some c1) (hc1 : c1 ∉ ([' ', '—'] : List Char))
    (h2 : email.toList.getLast? = some c2) (hc2 : c2 ∉ ([' ', '—'] : List Char)) :
    labelOf name email = name ++ " — " ++ email := by
  have hnn : name.toList ≠ [] := by cases hl : name.toList <;> simp_all
  show String.mk (stripWhile (fun c => c ∈ ([' ', '—'] : List Char))
    ((name.toList ++ [' ', '—', ' ']) ++ email.toList)) = name ++ " — " ++ email
  rw [stripWhile_eq_self (fun c => c ∈ ([' ', '—'] : List Char)) _ c1 c2
    ?_ (by simpa using hc1) ?_ (by simpa using hc2)]
  · rfl
  · rw [List.head?_append_of_ne_nil _ (by simp [hnn]),
      List.head?_append_of_ne_nil _ hnn]
    exact h1
  · rw [List.getLast?_append, h2]
    rfl

/-- When the email is empty, the label collapses to exactly the name,
provided the name starts and ends with neither a space nor an em-dash. -/
theorem labelOf_empty_email (name : String) (c1 c2 : Char)
    (h1 : name.toList.head? = some c1) (hc1 : c1 ∉ ([' ', '—'] : List Char))
    (h2 : name.toList.getLast? = some c2) (hc2 : c2 ∉ ([' ', '—'] : List Char)) :
    labelOf name "" = name := by
  show String.mk (stripWhile (fun c => c ∈ ([' ', '—'] : List Char))
    ((name.toList ++ [' ', '—', ' ']) ++ [])) = name
  rw [List.append_nil]
  rw [stripWhile_append_sep (fun c => c ∈ ([' ', '—'] : List Char)) name.toList
    c1 c2 h1 (by simpa using hc1) h2 (by simpa using hc2) (by simp) (by simp)]
  rfl

/-- C7 (amended): the search options are the contacts (truncated to the
limit) with any contact missing or having a falsy id or name skipped;
each emitted label is `f"{name} — {email}".strip(" —")` — which equals
`"Name — Email"` (and just the name for an empty email) whenever the
name and email do not themselves start/end with a space or em-dash, but
NOT in general (the strip can eat characters of the name, see the
counterexample). -/
theorem C7_label_amended (idp : String → IdpResponse) (now : Int)
    (st : StoreState) (fid q tx : String) (firm : Firm) (ct : CachedToken)
    (contacts : List ContactJson)
    (hf : fid ≠ "") (hq : pyStrip q ≠ "")
    (hfirm : lookupA st.firms fid = some firm)
    (hct : lookupA st.cache fid = some ct)
    (hfresh : ct.expires_at > now + 60) :
    ((clients_search idp (fun _ => ApiResponse.mk 200 tx (some contacts)) now st
        (SearchPayload.mk (some fid) (some q) PyVal.vnone)).1 =
      .ok (JVal.obj [("ok", JVal.bool true), ("options",
        JVal.arr ((contacts.take 5).filterMap optionOf))], 200)) ∧
    (∀ c : ContactJson, truthyS c.ContactID = false ∨ truthyS c.Name = false →
      optionOf c = none) ∧
    (∀ (c : ContactJson) (cid name : String),
      c.ContactID = some cid → c.Name = some name → cid ≠ "" → name ≠ "" →
      optionOf c = some (JVal.obj [("id", JVal.str cid),
        ("label", JVal.str (labelOf name (c.EmailAddress.getD "")))])) ∧
    (∀ (name email : String) (c1 c2 : Char),
      name.toList.head? = some c1 → c1 ∉ ([' ', '—'] : List Char) →
      email.toList.getLast? = some c2 → c2 ∉ ([' ', '—'] : List Char) →
      labelOf name email = name ++ " — " ++ email) ∧
    (∀ (name : String) (c1 c2 : Char),
      name.toList.head? = some c1 → c1 ∉ ([' ', '—'] : List Char) →
      name.toList.getLast? = some c2 → c2 ∉ ([' ', '—'] : List Char) →
      labelOf name "" = name) := by
  refine ⟨?_, ?_, ?_, labelOf_clean, labelOf_empty_email⟩
  · have hrefresh := refresh_access_token_fresh idp now st fid ct hct hfresh
    rw [clients_search_connected idp _ now st _ fid q ct.access_token _ firm
      PyVal.vnone 5 hf hq rfl hfirm hrefresh]
    have hsl : pySliceTo contacts 5 = contacts.take 5 := by simp [pySliceTo]
    simp [searchResponse, hsl]
  · intro c h
    cases h <;> simp [optionOf, *]
  · intro c cid name hcid hname hc hn
    simp [optionOf, hcid, hname, truthyS, hc, hn]

/-- Witness for C7 (amended) at concrete contacts and labels. -/
theorem C7_label_amended_witness :
    ((clients_search (fun _ => IdpResponse.mk 500 "" none none none)
        (fun _ => ApiResponse.mk 200 "" (some [ContactJson.mk (some "c1")
          (some "Acme Co") (some "a@acme.com") none none])) 0
        (StoreState.mk [("f", Firm.mk "t" "r1")] [("f", CachedToken.mk "a" 1000)])
        (SearchPayload.mk (some "f") (some "Acme") PyVal.vnone)).1 =
      .ok (JVal.obj [("ok", JVal.bool true), ("options",
        JVal.arr [JVal.obj [("id", JVal.str "c1"),
          ("label", JVal.str "Acme Co — a@acme.com")]])], 200)) ∧
    optionOf (ContactJson.mk none (some "B") none none none) = none ∧
    optionOf (ContactJson.mk (some "c1") (some "Acme Co") (some "a@acme.com")
        none none) =
      some (JVal.obj [("id", JVal.str "c1"),
        ("label", JVal.str (labelOf "Acme Co" "a@acme.com"))]) ∧
    labelOf "Acme" "x@y" = "Acme — x@y" ∧
    labelOf "Acme" "" = "Acme" := by
  have H := C7_label_amended (fun _ => IdpResponse.mk 500 "" none none none) 0
    (StoreState.mk [("f", Firm.mk "t" "r1")] [("f", CachedToken.mk "a" 1000)])
    "f" "Acme" "" (Firm.mk "t" "r1") (CachedToken.mk "a" 1000)
    [ContactJson.mk (some "c1") (some "Acme Co") (some "a@acme.com") none none]
    (by decide) (by decide) rfl rfl (by decide)
  exact ⟨H.1, H.2.1 _ (Or.inl rfl),
    H.2.2.1 _ "c1" "Acme Co" rfl rfl (by decide) (by decide),
    H.2.2.2.1 "Acme" "x@y" 'A' 'y' rfl (by decide) rfl (by decide),
    H.2.2.2.2 "Acme" 'A' 'e' rfl (by decide) rfl (by decide)⟩

/-- C7 counterexample: for a contact named "—Acme" with email "e@x" the
emitted label is "Acme — e@x" — `strip(" —")` has eaten the leading
em-dash of the name — while the claim demands `"Name — Email"`, i.e.
"—Acme — e@x". -/
theorem C7_label_strip_counterexample :
    ((clients_search (fun _ => IdpResponse.mk 500 "" none none none)
        (fun _ => ApiResponse.mk 200 "" (some [ContactJson.mk (some "c1")
          (some "—Acme") (some "e@x") none none])) 0
        (StoreState.mk [("f", Firm.mk "t" "r1")] [("f", CachedToken.mk "a" 1000)])
        (SearchPayload.mk (some "f") (some "Acme") PyVal.vnone)).1 =
      .ok (JVal.obj [("ok", JVal.bool true), ("options",
        JVal.arr [JVal.obj [("id", JVal.str "c1"),
          ("label", JVal.str "Acme — e@x")]])], 200)) ∧
    ("Acme — e@x" : String) ≠ "—Acme" ++ " — " ++ "e@x" :=
  ⟨rfl, by decide⟩

end ProtoolsApi
